import Mathlib

/-!
Shallow embedding of the real-time chat session-synchronization layer of the
Dr-lingo repository, together with proofs of the stated properties.

The embedded code comes from:
- the generic WebSocket hook `useWebSocket` (connection lifecycle, reconnect
  backoff, close-code policy, stale-attempt suppression, `send`),
- the chat hook `useChatWebSocket` (typing debounce, event dispatch),
- the `TranslationChat` component message handlers, which fold server events
  into the message list (`handleNewMessage`, `handleMessageTranslated`,
  `handleMessageTranscribed`, `handleTTSGenerated`).

Timers and the transport are modelled explicitly: a scheduled reconnect is the
`reconnectTimeout` field of the state, transmitted frames are returned as a
list, and invoked caller callbacks are returned as a list of tags.
-/

namespace DrLingo

/-! ## Constants (useWebSocket.ts / useChatWebSocket.ts) -/

def DEFAULT_RECONNECT_INTERVAL : Nat := 1000

def MAX_RECONNECT_INTERVAL : Nat := 30000

def DEFAULT_MAX_RECONNECT_ATTEMPTS : Nat := 10

def DEFAULT_PING_INTERVAL : Nat := 30000

def TYPING_DEBOUNCE_MS : Int := 1000

def TYPING_TIMEOUT_MS : Int := 3000

/-! ## Data model -/

inductive SenderType
  | patient
  | doctor
deriving DecidableEq, Repr

/-- Chat message as tracked by the client store (`ChatMessage` interface of
`ChatService`, plus the `audio_transcription` and `tts_audio_url` fields that
the WebSocket handlers patch in). -/
structure ChatMessage where
  id : Nat
  room : Nat
  sender_type : SenderType
  original_text : String
  original_language : String
  translated_text : String
  translated_language : String
  audio_transcription : Option String
  tts_audio_url : Option String
  has_audio : Bool
  created_at : String
deriving DecidableEq, Repr

/-- Payload of a `message.new` server event. -/
structure MessageNewEvent where
  message_id : Nat
  room_id : Nat
  sender_type : SenderType
  original_text : String
  has_audio : Bool
  timestamp : String
deriving DecidableEq, Repr

/-- Payload of a `message.translated` server event. -/
structure MessageTranslatedEvent where
  message_id : Nat
  room_id : Nat
  translated_text : String
  target_lang : String
deriving DecidableEq, Repr

/-- Payload of a `message.transcribed` server event. -/
structure MessageTranscribedEvent where
  message_id : Nat
  room_id : Nat
  transcription : String
  detected_language : String
deriving DecidableEq, Repr

/-- Payload of a `tts.generated` server event. -/
structure TTSGeneratedEvent where
  message_id : Nat
  room_id : Nat
  audio_url : String
deriving DecidableEq, Repr

/-- The tagged union of inbound server events (types/websocket.ts). -/
inductive ServerEvent
  | connectionEstablished (room_id user_id : Nat) (message : String)
  | messageNew (e : MessageNewEvent)
  | messageTranslated (e : MessageTranslatedEvent)
  | messageTranscribed (e : MessageTranscribedEvent)
  | ttsGenerated (e : TTSGeneratedEvent)
  | translationFailed (message_id : Nat) (errorText : String)
  | audioProcessingFailed (message_id : Nat) (errorText : String)
  | userTyping (user_id : Nat) (sender_type : SenderType)
  | userStoppedTyping (user_id : Nat)
  | userDisconnected (user_id : Nat)
  | errorEvent (message : String)
  | pong (timestamp : Nat)
deriving DecidableEq, Repr

/-- Outbound client events, as serialized by `useChatWebSocket`
(`sender_type` is the optional `userType` of the hook). -/
inductive ClientEvent
  | typing (sender_type : Option SenderType)
  | stopTyping (sender_type : Option SenderType)
  | ping
deriving DecidableEq, Repr

/-! ## MessageStateStore: the TranslationChat event handlers

Each handler embeds the function passed to `setMessages(prev => ...)` in
`TranslationChat`; it maps the previous list to the next list. -/

/-- `handleMessageTranslated`: patch the translated text and language of the
message whose id matches the event. -/
def handleMessageTranslated (event : MessageTranslatedEvent)
    (prev : List ChatMessage) : List ChatMessage :=
  prev.map fun msg =>
    if msg.id = event.message_id then
      { msg with
          translated_text := event.translated_text
          translated_language := event.target_lang }
    else msg

/-- `handleMessageTranscribed`: the source sets BOTH `original_text` and
`audio_transcription` to the transcription of the matching message. -/
def handleMessageTranscribed (event : MessageTranscribedEvent)
    (prev : List ChatMessage) : List ChatMessage :=
  prev.map fun msg =>
    if msg.id = event.message_id then
      { msg with
          original_text := event.transcription
          audio_transcription := some event.transcription }
    else msg

/-- `handleTTSGenerated`: patch the TTS audio URL of the matching message. -/
def handleTTSGenerated (event : TTSGeneratedEvent)
    (prev : List ChatMessage) : List ChatMessage :=
  prev.map fun msg =>
    if msg.id = event.message_id then { msg with tts_audio_url := some event.audio_url }
    else msg

/-- `handleNewMessage` ignores the event payload and only triggers
`loadMessages` (a refetch of the authoritative list); the store itself is not
modified by the event. The returned Bool records that the reload signal was
issued. -/
def handleNewMessage (_event : MessageNewEvent)
    (prev : List ChatMessage) : List ChatMessage × Bool :=
  (prev, true)

/-- The store events handled by `TranslationChat`. -/
inductive StoreEvent
  | newMessage (e : MessageNewEvent)
  | translated (e : MessageTranslatedEvent)
  | transcribed (e : MessageTranscribedEvent)
  | ttsGenerated (e : TTSGeneratedEvent)
deriving DecidableEq, Repr

/-- Folding one handled server event into the message list. -/
def applyStoreEvent (ev : StoreEvent) (prev : List ChatMessage) : List ChatMessage :=
  match ev with
  | .newMessage e => (handleNewMessage e prev).1
  | .translated e => handleMessageTranslated e prev
  | .transcribed e => handleMessageTranscribed e prev
  | .ttsGenerated e => handleTTSGenerated e prev

/-! ### Store theorems -/

/-- C4: applying the translated-event reducer twice with the same event yields
exactly the same message list as applying it once (idempotent merge by id). -/
theorem handleMessageTranslated_idempotent (event : MessageTranslatedEvent)
    (prev : List ChatMessage) :
    handleMessageTranslated event (handleMessageTranslated event prev)
      = handleMessageTranslated event prev := by
  unfold handleMessageTranslated
  rw [List.map_map]
  refine List.map_congr_left ?_
  intro msg _
  by_cases h : msg.id = event.message_id
  · simp [Function.comp, h]
  · simp [Function.comp, h]

/-- C5: a translated event leaves every message with a different id unchanged
(position by position), and an event whose `message_id` matches no existing
message leaves the whole store unchanged. -/
theorem handleMessageTranslated_frame (event : MessageTranslatedEvent)
    (prev : List ChatMessage) :
    (∀ (i : Nat) (m : ChatMessage), prev[i]? = some m → m.id ≠ event.message_id →
        (handleMessageTranslated event prev)[i]? = some m)
      ∧ ((∀ m ∈ prev, m.id ≠ event.message_id) →
        handleMessageTranslated event prev = prev) := by
  constructor
  · intro i m hi hne
    unfold handleMessageTranslated
    rw [List.getElem?_map, hi]
    simp [hne]
  · intro hall
    unfold handleMessageTranslated
    induction prev with
    | nil => rfl
    | cons m t ih =>
      simp only [List.map_cons]
      rw [if_neg (hall m (List.mem_cons_self m t)), ih]
      intro m' hm'
      exact hall m' (List.mem_cons_of_mem m hm')

/-- A sample message with id 1 (used as concrete input in witnesses). -/
def msgA : ChatMessage :=
  { id := 1, room := 7, sender_type := .patient,
    original_text := "hello", original_language := "en",
    translated_text := "", translated_language := "",
    audio_transcription := none, tts_audio_url := none,
    has_audio := false, created_at := "t1" }

/-- A sample message with id 2 (used as concrete input in witnesses). -/
def msgB : ChatMessage :=
  { id := 2, room := 7, sender_type := .doctor,
    original_text := "hola", original_language := "es",
    translated_text := "", translated_language := "",
    audio_transcription := none, tts_audio_url := none,
    has_audio := false, created_at := "t2" }

/-- A translated event whose message id matches no message in `[msgA, msgB]`. -/
def evTransUnknown : MessageTranslatedEvent :=
  { message_id := 99, room_id := 7, translated_text := "Hola", target_lang := "es" }

/-- C5 witness: on the concrete store `[msgA, msgB]` and an event for the
unknown id 99, the message at index 0 is returned unchanged and the whole
store is unchanged. -/
theorem handleMessageTranslated_frame_witness :
    (handleMessageTranslated evTransUnknown [msgA, msgB])[0]? = some msgA
      ∧ handleMessageTranslated evTransUnknown [msgA, msgB] = [msgA, msgB] :=
  ⟨(handleMessageTranslated_frame evTransUnknown [msgA, msgB]).1 0 msgA rfl (by decide),
   (handleMessageTranslated_frame evTransUnknown [msgA, msgB]).2 (by decide)⟩

/-- C6: no handled server event removes a message: the list of message ids
(with order and multiplicity) is the same before and after any handled event,
so every message present before is still present, with the same id, after. -/
theorem applyStoreEvent_preserves_ids (ev : StoreEvent) (prev : List ChatMessage) :
    (applyStoreEvent ev prev).map (fun m => m.id) = prev.map (fun m => m.id) := by
  cases ev with
  | newMessage e => rfl
  | translated e =>
    unfold applyStoreEvent handleMessageTranslated
    rw [List.map_map]
    refine List.map_congr_left ?_
    intro msg _
    by_cases h : msg.id = e.message_id <;> simp [Function.comp, h]
  | transcribed e =>
    unfold applyStoreEvent handleMessageTranscribed
    rw [List.map_map]
    refine List.map_congr_left ?_
    intro msg _
    by_cases h : msg.id = e.message_id <;> simp [Function.comp, h]
  | ttsGenerated e =>
    unfold applyStoreEvent handleTTSGenerated
    rw [List.map_map]
    refine List.map_congr_left ?_
    intro msg _
    by_cases h : msg.id = e.message_id <;> simp [Function.comp, h]

/-- A message carrying a voice recording, before transcription arrives. -/
def msgVoice : ChatMessage :=
  { id := 5, room := 7, sender_type := .patient,
    original_text := "voice message", original_language := "es",
    translated_text := "", translated_language := "",
    audio_transcription := none, tts_audio_url := none,
    has_audio := true, created_at := "t3" }

/-- A transcribed event targeting `msgVoice`. -/
def evTranscribed : MessageTranscribedEvent :=
  { message_id := 5, room_id := 7, transcription := "I have a headache",
    detected_language := "en" }

/-- C8 counterexample: the transcribed event does NOT leave the original text
unchanged — `handleMessageTranscribed` overwrites `original_text` with the
transcription, so the original text of the matching message changes. -/
theorem handleMessageTranscribed_changes_original_text :
    ((handleMessageTranscribed evTranscribed [msgVoice]).map fun m => m.original_text)
      ≠ [msgVoice.original_text] := by decide

/-- C8 amended: a transcribed event patches the matching message by setting
both `original_text` and `audio_transcription` to the transcription of the
event, leaving every other field of that message unchanged (the record update
touches only those two fields); messages with a different id are unchanged. -/
theorem handleMessageTranscribed_patch (event : MessageTranscribedEvent)
    (prev : List ChatMessage) (i : Nat) (m : ChatMessage) (hi : prev[i]? = some m) :
    (m.id = event.message_id →
        (handleMessageTranscribed event prev)[i]?
          = some { m with
                     original_text := event.transcription
                     audio_transcription := some event.transcription })
      ∧ (m.id ≠ event.message_id → (handleMessageTranscribed event prev)[i]? = some m) := by
  unfold handleMessageTranscribed
  rw [List.getElem?_map, hi]
  constructor
  · intro h; simp [h]
  · intro h; simp [h]

/-- C8 amended witness: at the concrete store `[msgVoice]` and the concrete
event `evTranscribed`, the patched message has the transcription as original
text and transcription field, and keeps all other fields of `msgVoice`. -/
theorem handleMessageTranscribed_patch_witness :
    (handleMessageTranscribed evTranscribed [msgVoice])[0]?
      = some { msgVoice with
                 original_text := evTranscribed.transcription
                 audio_transcription := some evTranscribed.transcription } :=
  (handleMessageTranscribed_patch evTranscribed [msgVoice] 0 msgVoice rfl).1 (by decide)

/-! ## ConnectionManager: the useWebSocket hook

State fields mirror the refs of the hook. A pending `setTimeout` for a
reconnect is modelled as `reconnectTimeout = some delay`; the ping interval as
`pingActive`. `wsRef` holds the connection id of the held socket, `none` when
the ref is null. Each transport handler captures `currentConnectionId` (here
the `cid` argument) at `connect()` time and compares it with the live
`connectionId` field. -/

inductive WebSocketStatus
  | connecting
  | connected
  | reconnecting
  | disconnected
  | error
deriving DecidableEq, Repr

structure WSConfig where
  shouldReconnect : Bool
  reconnectInterval : Nat
  maxReconnectAttempts : Nat
deriving DecidableEq, Repr

structure WSState where
  status : WebSocketStatus
  wsRef : Option Nat
  reconnectAttempts : Nat
  reconnectTimeout : Option Nat
  pingActive : Bool
  mounted : Bool
  connectionId : Nat
  isConnecting : Bool
deriving DecidableEq, Repr

/-- Caller-supplied callbacks invoked by the hook, as observable effects. -/
inductive Callback
  | onConnect
  | onDisconnect
  | onError
  | onMessage (e : ServerEvent)
deriving DecidableEq, Repr

/-- `getReconnectDelay`: exponential backoff clamped at `MAX_RECONNECT_INTERVAL`,
computed from the current attempt counter. -/
def getReconnectDelay (cfg : WSConfig) (attempts : Nat) : Nat :=
  min (cfg.reconnectInterval * 2 ^ attempts) MAX_RECONNECT_INTERVAL

/-- `clearTimers`: cancel the pending reconnect timeout and the ping interval. -/
def clearTimers (s : WSState) : WSState :=
  { s with reconnectTimeout := none, pingActive := false }

/-- `ws.onopen` handler of connection `cid`: stale or unmounted attempts only
close their own socket; otherwise the hook marks the connection established,
resets the attempt counter, starts the ping interval and fires `onConnect`. -/
def onopen (cid : Nat) (s : WSState) : WSState × List Callback :=
  if ¬ s.mounted ∨ s.connectionId ≠ cid then (s, [])
  else
    ({ s with
         isConnecting := false
         status := .connected
         reconnectAttempts := 0
         pingActive := true }, [.onConnect])

/-- `ws.onmessage` handler of connection `cid`: `data` is the JSON parse
result of the frame (`none` on parse failure, which is logged and dropped). -/
def onmessage (cid : Nat) (data : Option ServerEvent) (s : WSState) :
    WSState × List Callback :=
  if ¬ s.mounted ∨ s.connectionId ≠ cid then (s, [])
  else
    match data with
    | some ev => (s, [.onMessage ev])
    | none => (s, [])

/-- `ws.onerror` handler of connection `cid`. -/
def onerror (cid : Nat) (s : WSState) : WSState × List Callback :=
  if ¬ s.mounted ∨ s.connectionId ≠ cid then (s, [])
  else ({ s with isConnecting := false, status := .error }, [.onError])

/-- `ws.onclose` handler of connection `cid` with close code `code`.
Mirrors the source order: the connecting flag is cleared BEFORE the stale and
mounted checks; then timers are cleared and the socket ref nulled; terminal
close codes 4001, 4002, 4003 move to `error` without reconnecting; otherwise
the status becomes `disconnected`, `onDisconnect` fires, and a reconnect is
scheduled when enabled and the attempt budget is not exhausted. -/
def onclose (cfg : WSConfig) (cid : Nat) (code : Nat) (s : WSState) :
    WSState × List Callback :=
  let s0 := { s with isConnecting := false }
  if s0.connectionId ≠ cid then (s0, [])
  else if ¬ s0.mounted then (s0, [])
  else
    let s1 := { clearTimers s0 with wsRef := none }
    if code = 4001 then ({ s1 with status := .error }, [])
    else if code = 4002 then ({ s1 with status := .error }, [])
    else if code = 4003 then ({ s1 with status := .error }, [])
    else
      let s2 := { s1 with status := .disconnected }
      if s2.mounted && cfg.shouldReconnect
          && s2.reconnectAttempts < cfg.maxReconnectAttempts then
        ({ s2 with
             status := .reconnecting
             reconnectAttempts := s2.reconnectAttempts + 1
             reconnectTimeout := some (getReconnectDelay cfg s2.reconnectAttempts) },
         [.onDisconnect])
      else (s2, [.onDisconnect])

/-! ### ConnectionManager theorems -/

/-- C1: on an unexpected (non-terminal) close handled by the live connection
with attempt counter `n` and budget remaining, the scheduled reconnect delay
equals `min (reconnectInterval * 2 ^ n) 30000`; in particular it is clamped at
the 30-second cap whenever `reconnectInterval * 2 ^ n ≥ 30000`. -/
theorem reconnect_delay_exponential_with_cap
    (cfg : WSConfig) (cid code : Nat) (s : WSState)
    (hid : s.connectionId = cid) (hm : s.mounted = true)
    (h1 : code ≠ 4001) (h2 : code ≠ 4002) (h3 : code ≠ 4003)
    (hr : cfg.shouldReconnect = true)
    (hb : s.reconnectAttempts < cfg.maxReconnectAttempts) :
    (onclose cfg cid code s).1.reconnectTimeout
        = some (min (cfg.reconnectInterval * 2 ^ s.reconnectAttempts)
            MAX_RECONNECT_INTERVAL)
      ∧ (MAX_RECONNECT_INTERVAL ≤ cfg.reconnectInterval * 2 ^ s.reconnectAttempts →
          (onclose cfg cid code s).1.reconnectTimeout = some MAX_RECONNECT_INTERVAL) := by
  unfold onclose
  simp only [hid, hm, clearTimers, getReconnectDelay]
  simp [h1, h2, h3, hr, hb]

/-- C1 witness: from a live mounted state with attempt counter 6 and base
interval 1000, the transient close 1006 schedules a reconnect after
`min (1000 * 2 ^ 6) 30000 = 30000` ms, the clamped cap. -/
theorem reconnect_delay_exponential_with_cap_witness :
    (onclose ⟨true, 1000, 10⟩ 3 1006
        ⟨.connected, some 3, 6, none, true, true, 3, false⟩).1.reconnectTimeout
      = some 30000 := by
  have h := reconnect_delay_exponential_with_cap ⟨true, 1000, 10⟩ 3 1006
    ⟨.connected, some 3, 6, none, true, true, 3, false⟩
    rfl rfl (by decide) (by decide) (by decide) rfl (by decide)
  exact h.2 (by decide)

/-- C2: a close with a terminal code (4001 authentication failure, 4002
required verification, 4003 access denied) handled by the live connection
never schedules a reconnect — regardless of the remaining attempt budget —
the attempt counter is untouched, no callback fires, and the status becomes
`error`. -/
theorem terminal_close_never_reconnects
    (cfg : WSConfig) (cid code : Nat) (s : WSState)
    (hid : s.connectionId = cid) (hm : s.mounted = true)
    (ht : code = 4001 ∨ code = 4002 ∨ code = 4003) :
    (onclose cfg cid code s).1.status = WebSocketStatus.error
      ∧ (onclose cfg cid code s).1.reconnectTimeout = none
      ∧ (onclose cfg cid code s).1.reconnectAttempts = s.reconnectAttempts
      ∧ (onclose cfg cid code s).2 = [] := by
  rcases ht with h | h | h <;> subst h <;>
    simp [onclose, hid, hm, clearTimers]

/-- C2 witness: the authentication-failure close 4001 on a live mounted state
with zero attempts used (full budget remaining) yields status `error`, no
scheduled reconnect, unchanged counter, and no callback. -/
theorem terminal_close_never_reconnects_witness :
    (onclose ⟨true, 1000, 10⟩ 3 4001
          ⟨.connected, some 3, 0, none, true, true, 3, false⟩).1.status
        = WebSocketStatus.error
      ∧ (onclose ⟨true, 1000, 10⟩ 3 4001
          ⟨.connected, some 3, 0, none, true, true, 3, false⟩).1.reconnectTimeout
        = none :=
  have h := terminal_close_never_reconnects ⟨true, 1000, 10⟩ 3 4001
    ⟨.connected, some 3, 0, none, true, true, 3, false⟩ rfl rfl (Or.inl rfl)
  ⟨h.1, h.2.1⟩

/-- Default configuration and a live state whose attempt budget is exhausted
(used as the concrete input for C3). -/
def cfgDefault : WSConfig := ⟨true, 1000, 10⟩

def exhaustedState : WSState :=
  { status := .connected, wsRef := some 3, reconnectAttempts := 10,
    reconnectTimeout := none, pingActive := true, mounted := true,
    connectionId := 3, isConnecting := false }

/-- C3 counterexample: on a transient close (code 1006) with the attempt
budget exhausted (10 of 10 attempts used), the code does NOT surface status
`error`: the resulting status is `disconnected`. -/
theorem exhausted_close_status_not_error :
    (onclose cfgDefault 3 1006 exhaustedState).1.status ≠ WebSocketStatus.error
      ∧ (onclose cfgDefault 3 1006 exhaustedState).1.status
        = WebSocketStatus.disconnected := by decide

/-- C3 amended: when a transient close is handled by the live connection and
the attempt budget is exhausted, the manager gives up retrying — no reconnect
is scheduled and the counter stops — and surfaces the terminal status
`disconnected` (not `error`) through the state and the `onDisconnect`
callback. -/
theorem exhausted_close_gives_up
    (cfg : WSConfig) (cid code : Nat) (s : WSState)
    (hid : s.connectionId = cid) (hm : s.mounted = true)
    (h1 : code ≠ 4001) (h2 : code ≠ 4002) (h3 : code ≠ 4003)
    (hb : cfg.maxReconnectAttempts ≤ s.reconnectAttempts) :
    (onclose cfg cid code s).1.status = WebSocketStatus.disconnected
      ∧ (onclose cfg cid code s).1.reconnectTimeout = none
      ∧ (onclose cfg cid code s).1.reconnectAttempts = s.reconnectAttempts
      ∧ (onclose cfg cid code s).2 = [Callback.onDisconnect] := by
  have hb' : ¬ s.reconnectAttempts < cfg.maxReconnectAttempts := Nat.not_lt.mpr hb
  simp [onclose, hid, hm, clearTimers, h1, h2, h3, hb']

/-- C3 amended witness: at the exhausted concrete state, the transient close
1006 yields status `disconnected`, no scheduled reconnect, counter still 10,
and exactly the `onDisconnect` callback. -/
theorem exhausted_close_gives_up_witness :
    (onclose cfgDefault 3 1006 exhaustedState).1.status
        = WebSocketStatus.disconnected
      ∧ (onclose cfgDefault 3 1006 exhaustedState).1.reconnectTimeout = none :=
  have h := exhausted_close_gives_up cfgDefault 3 1006 exhaustedState
    rfl rfl (by decide) (by decide) (by decide) (by decide)
  ⟨h.1, h.2.1⟩

/-- A state in which a newer connection (id 5) is current while a handler of
the superseded connection 3 fires; the current attempt is mid-connect. -/
def staleState : WSState :=
  { status := .connecting, wsRef := some 5, reconnectAttempts := 2,
    reconnectTimeout := none, pingActive := false, mounted := true,
    connectionId := 5, isConnecting := true }

/-- C9 counterexample: a stale `onclose` (originating id 3, current id 5) is
NOT a complete no-op — it clears the shared connecting flag before the stale
check, so shared state is mutated. -/
theorem stale_onclose_mutates_connecting_flag :
    staleState.isConnecting = true
      ∧ (onclose cfgDefault 3 1000 staleState).1.isConnecting = false
      ∧ (onclose cfgDefault 3 1000 staleState).1 ≠ staleState := by decide

/-- C9 amended: a transport callback whose originating connection id differs
from the current id invokes no caller callback and leaves the state unchanged,
with one exception: the stale `onclose` still clears the connecting flag
(every other field — status, socket ref, attempt counter, pending timers, the
id itself — is untouched). -/
theorem stale_callbacks_no_op
    (cfg : WSConfig) (cid code : Nat) (data : Option ServerEvent) (s : WSState)
    (h : s.connectionId ≠ cid) :
    onopen cid s = (s, [])
      ∧ onmessage cid data s = (s, [])
      ∧ onerror cid s = (s, [])
      ∧ onclose cfg cid code s = ({ s with isConnecting := false }, []) := by
  refine ⟨?_, ?_, ?_, ?_⟩
  · simp [onopen, h]
  · simp [onmessage, h]
  · simp [onerror, h]
  · simp [onclose, h]

/-- C9 amended witness: at the concrete stale state (current id 5, handler id
3), all four handlers produce no callbacks and only the close handler changes
the state, clearing the connecting flag. -/
theorem stale_callbacks_no_op_witness :
    onopen 3 staleState = (staleState, [])
      ∧ onmessage 3 (some (.pong 17)) staleState = (staleState, [])
      ∧ onerror 3 staleState = (staleState, [])
      ∧ onclose cfgDefault 3 1000 staleState
        = ({ staleState with isConnecting := false }, []) :=
  stale_callbacks_no_op cfgDefault 3 1000 (some (.pong 17)) staleState (by decide)

/-! ## PresenceTracker: the typing debounce of useChatWebSocket

`send` embeds the `send` of useWebSocket: the frame is transmitted only when
the transport is open, otherwise it is dropped (logged). The returned list
holds the frames actually transmitted by the call. -/

def send (isOpen : Bool) (message : ClientEvent) : List ClientEvent :=
  if isOpen then [message] else []

/-- The mutable cell `lastTypingSentRef` (epoch ms, initially 0). -/
structure TypingSendState where
  lastTypingSent : Int
deriving DecidableEq, Repr

/-- `sendTyping`: transmit a typing event only when at least
`TYPING_DEBOUNCE_MS` elapsed since the last transmission attempt; the
debounce clock is advanced whenever the guard passes, whether or not the
transport was open enough for `send` to actually transmit. -/
def sendTyping (userType : Option SenderType) (isOpen : Bool) (now : Int)
    (s : TypingSendState) : TypingSendState × List ClientEvent :=
  if TYPING_DEBOUNCE_MS ≤ now - s.lastTypingSent then
    (⟨now⟩, send isOpen (.typing userType))
  else (s, [])

/-- `sendStopTyping`: always transmit (subject to the transport being open)
and reset the debounce clock to 0. -/
def sendStopTyping (userType : Option SenderType) (isOpen : Bool) :
    TypingSendState × List ClientEvent :=
  (⟨0⟩, send isOpen (.stopTyping userType))

/-! ### PresenceTracker theorems -/

/-- C7: when the debounce window has elapsed at the first call, two calls of
`sendTyping` within `TYPING_DEBOUNCE_MS` of each other with the transport open
transmit exactly one typing event: the first call transmits it and the second
call transmits nothing. -/
theorem sendTyping_debounce_once
    (userType : Option SenderType) (s : TypingSendState) (t0 t1 : Int)
    (h0 : TYPING_DEBOUNCE_MS ≤ t0 - s.lastTypingSent)
    (_h01 : t0 ≤ t1) (hw : t1 - t0 < TYPING_DEBOUNCE_MS) :
    (sendTyping userType true t0 s).2 = [ClientEvent.typing userType]
      ∧ (sendTyping userType true t1 (sendTyping userType true t0 s).1).2 = []
      ∧ ((sendTyping userType true t0 s).2
          ++ (sendTyping userType true t1 (sendTyping userType true t0 s).1).2).length
        = 1 := by
  have hfst : sendTyping userType true t0 s = (⟨t0⟩, [ClientEvent.typing userType]) := by
    simp [sendTyping, send, h0]
  have hsnd :
      (sendTyping userType true t1 (⟨t0⟩ : TypingSendState)).2 = [] := by
    have : ¬ TYPING_DEBOUNCE_MS ≤ t1 - t0 := by
      intro hle
      exact absurd hw (not_lt.mpr hle)
    simp [sendTyping, this]
  rw [hfst]
  exact ⟨rfl, hsnd, by rw [hsnd]; rfl⟩

/-- C7 witness: from the initial state (clock 0), calls at 5000 ms and
5500 ms with the transport open transmit exactly the one typing event of the
first call. -/
theorem sendTyping_debounce_once_witness :
    (sendTyping (some .patient) true 5000 ⟨0⟩).2
        = [ClientEvent.typing (some .patient)]
      ∧ (sendTyping (some .patient) true 5500
          (sendTyping (some .patient) true 5000 ⟨0⟩).1).2 = [] :=
  have h := sendTyping_debounce_once (some .patient) ⟨0⟩ 5000 5500
    (by decide) (by decide) (by decide)
  ⟨h.1, h.2.1⟩

/-- C10: a `sendTyping` call made once the debounce window elapsed but with
the transport not open transmits nothing, yet still advances the debounce
clock to the call time; a further call within the next `TYPING_DEBOUNCE_MS`
therefore transmits nothing even when the transport is open by then. -/
theorem sendTyping_closed_transport_advances_clock
    (userType : Option SenderType) (s : TypingSendState) (t0 t1 : Int)
    (h0 : TYPING_DEBOUNCE_MS ≤ t0 - s.lastTypingSent)
    (_h01 : t0 ≤ t1) (hw : t1 - t0 < TYPING_DEBOUNCE_MS) :
    (sendTyping userType false t0 s).2 = []
      ∧ (sendTyping userType false t0 s).1.lastTypingSent = t0
      ∧ (sendTyping userType true t1 (sendTyping userType false t0 s).1).2 = [] := by
  have hfst : sendTyping userType false t0 s = (⟨t0⟩, []) := by
    simp [sendTyping, send, h0]
  have hnle : ¬ TYPING_DEBOUNCE_MS ≤ t1 - t0 := by
    intro hle
    exact absurd hw (not_lt.mpr hle)
  rw [hfst]
  exact ⟨rfl, rfl, by simp [sendTyping, hnle]⟩

/-- C10 witness: from the initial state, a call at 5000 ms with the transport
closed transmits nothing but sets the clock to 5000; a call at 5500 ms with
the transport open still transmits nothing. -/
theorem sendTyping_closed_transport_advances_clock_witness :
    (sendTyping (some .doctor) false 5000 ⟨0⟩).2 = []
      ∧ (sendTyping (some .doctor) false 5000 ⟨0⟩).1.lastTypingSent = 5000
      ∧ (sendTyping (some .doctor) true 5500
          (sendTyping (some .doctor) false 5000 ⟨0⟩).1).2 = [] :=
  sendTyping_closed_transport_advances_clock (some .doctor) ⟨0⟩ 5000 5500
    (by decide) (by decide) (by decide)

end DrLingo
